import Mathlib

/-!
Shallow embedding of `src/server.js` (prime-portal-backend): a small
Express + MongoDB service with a health endpoint, a status endpoint, and
three QR-code routes (insert, list, get-by-id).

The mutable module state (`isConnected` and the `qrcodes` collection) is
an explicit `ServerState`.  External nondeterminism — whether a reconnect
attempt succeeds, whether a driver call throws, the ObjectId the driver
assigns on insert, the current clock, and the text of driver error
messages — is an `Env` oracle fixed per request.  Each handler also
returns the list of driver operations it performed (`Effect`), so that
"attempts exactly one reconnect" and "does not probe the store" are
statable.
-/

/-- A JavaScript/BSON value as it appears in request bodies and stored
documents.  `contactInfo` has no schema, so values stay opaque; the only
operation the server applies to them is JS truthiness. -/
inductive JSValue where
  | null
  | bool (b : Bool)
  | num (n : Int)
  | str (s : String)
  | arr (elems : List JSValue)
  | obj (fields : List (String × JSValue))

/-- JS truthiness of a value (floats/NaN are outside the model; numbers
are integers). -/
def truthy : JSValue → Bool
  | .null => false
  | .bool b => b
  | .num n => n != 0
  | .str s => s != ""
  | .arr _ => true
  | .obj _ => true

/-- Truthiness of a destructured field: a field missing from `req.body`
destructures to `undefined`, which is falsy. -/
def truthyOpt : Option JSValue → Bool
  | none => false
  | some v => truthy v

/-- A document of the `qrcodes` collection, as inserted by the POST
handler (`{ contactInfo, qrCodeImage, createdAt: new Date() }` plus the
driver-assigned `_id`).  Timestamps are milliseconds since epoch. -/
structure Record where
  oid : String
  contactInfo : JSValue
  qrCodeImage : JSValue
  createdAt : Nat

/-- The module-level mutable state of `server.js`: the cached
`isConnected` flag and the contents of the `qrcodes` collection. -/
structure ServerState where
  isConnected : Bool
  store : List Record

/-- Per-request external nondeterminism: outcome of a reconnect attempt,
whether each driver call throws, the ObjectId assigned by `insertOne`,
the clock, the driver error text, and `process.env.NODE_ENV`. -/
structure Env where
  connectResult : Bool
  insertFault : Bool
  findFault : Bool
  findOneFault : Bool
  newId : String
  now : Nat
  errMsg : String
  nodeEnv : Option String

/-- Driver operations a handler performs, in order. -/
inductive Effect where
  | connectAttempt
  | insertOp
  | findOp
  | findOneOp

/-- The body of an HTTP JSON response, by shape:
`error m` is `\x7bsuccess:false, message:m\x7d`; `created` is the 201
body `\x7bsuccess:true, id, message\x7d`; `records` is the sanitized
array returned by the list route, each element rendered as its ordered
key/value pairs; `record` is the full document returned by get-by-id. -/
inductive Body where
  | error (message : String)
  | created (id : String) (message : String)
  | records (elems : List (List (String × JSValue)))
  | record (r : Record)
  | health (status message : String)
  | statusInfo (server mongodb environment : String)

/-- An HTTP response: status code and JSON body. -/
structure Response where
  status : Nat
  body : Body

/-- What one handler invocation produces: the response, the new module
state, and the trace of driver operations performed. -/
structure HResult where
  resp : Response
  state : ServerState
  effects : List Effect

/-- The JSON body of a POST `/api/qrcodes` request; each field is `none`
when absent from the body. -/
structure ReqBody where
  contactInfo : Option JSValue
  qrCodeImage : Option JSValue

/-- `connectToMongoDB`: on success sets `isConnected := true`; on any
failure (connect or the validating ping) the catch sets it to `false`.
`ok` is the combined success of connect-plus-ping. -/
def connectToMongoDB (ok : Bool) (s : ServerState) : ServerState :=
  { s with isConnected := ok }

/-- `new ObjectId(id)` succeeds exactly on 24-character hex strings;
anything else throws (caught by the handler's inner catch). -/
def isValidObjectId (id : String) : Bool :=
  id.length == 24 && id.toList.all (fun c =>
    c.isDigit || ('a' ≤ c && c ≤ 'f') || ('A' ≤ c && c ≤ 'F'))

/-- `process.env.NODE_ENV || 'development'` (`||` takes the fallback on
the falsy empty string as well as on an unset variable). -/
def nodeEnvOr : Option String → String
  | none => "development"
  | some v => if v == "" then "development" else v

/-- The sanitized list element built by the list route:
`(\x7b _id: code._id, contactInfo: code.contactInfo, createdAt: code.createdAt \x7d)`,
as its ordered key/value pairs. -/
def sanitizedFields (r : Record) : List (String × JSValue) :=
  [("_id", JSValue.str r.oid), ("contactInfo", r.contactInfo),
   ("createdAt", JSValue.num r.createdAt)]

/-- GET `/health`. -/
def healthHandler (s : ServerState) : HResult :=
  ⟨⟨200, .health "ok" "Server is running"⟩, s, []⟩

/-- GET `/api/status`: reports the cached flag, no probe. -/
def apiStatusHandler (env : Env) (s : ServerState) : HResult :=
  ⟨⟨200, .statusInfo "running"
      (if s.isConnected then "connected" else "disconnected")
      (nodeEnvOr env.nodeEnv)⟩, s, []⟩

/-- POST `/api/qrcodes`: reconnect guard, truthiness validation of the
two destructured fields, then `insertOne` (whose throw is caught by the
outer catch as a 500). -/
def postQrcodes (env : Env) (body : ReqBody) (s0 : ServerState) : HResult :=
  let s := if s0.isConnected then s0 else connectToMongoDB env.connectResult s0
  let eff : List Effect := if s0.isConnected then [] else [.connectAttempt]
  if !s.isConnected then
    ⟨⟨500, .error "Database connection is not available"⟩, s, eff⟩
  else if !truthyOpt body.contactInfo || !truthyOpt body.qrCodeImage then
    ⟨⟨400, .error "Missing required fields: contactInfo or qrCodeImage"⟩, s, eff⟩
  else if env.insertFault then
    ⟨⟨500, .error ("Failed to save QR code: " ++ env.errMsg)⟩, s, eff ++ [.insertOp]⟩
  else
    -- the defaults are unreachable: a `none` field is falsy and was rejected above
    let newRec : Record :=
      ⟨env.newId, body.contactInfo.getD .null, body.qrCodeImage.getD .null, env.now⟩
    ⟨⟨201, .created env.newId "QR code saved successfully"⟩,
      { s with store := s.store ++ [newRec] }, eff ++ [.insertOp]⟩

/-- GET `/api/qrcodes`: reconnect guard, `find(\x7b\x7d).toArray()`
(throw caught by the outer catch as a 500), then the sanitizing `map`. -/
def getQrcodes (env : Env) (s0 : ServerState) : HResult :=
  let s := if s0.isConnected then s0 else connectToMongoDB env.connectResult s0
  let eff : List Effect := if s0.isConnected then [] else [.connectAttempt]
  if !s.isConnected then
    ⟨⟨500, .error "Database connection is not available"⟩, s, eff⟩
  else if env.findFault then
    ⟨⟨500, .error ("Failed to fetch QR codes: " ++ env.errMsg)⟩, s, eff ++ [.findOp]⟩
  else
    ⟨⟨200, .records (s.store.map sanitizedFields)⟩, s, eff ++ [.findOp]⟩

/-- GET `/api/qrcodes/:id`: reconnect guard, the `!id` check, then the
inner try block holding `new ObjectId(id)` and `findOne`.  The inner
catch returns 400 `Invalid ID format` for ANY throw inside that block —
including a `findOne` I/O fault, not only a malformed id. -/
def getQrcodeById (env : Env) (id : String) (s0 : ServerState) : HResult :=
  let s := if s0.isConnected then s0 else connectToMongoDB env.connectResult s0
  let eff : List Effect := if s0.isConnected then [] else [.connectAttempt]
  if !s.isConnected then
    ⟨⟨500, .error "Database connection is not available"⟩, s, eff⟩
  else if id == "" then
    ⟨⟨400, .error "Missing required parameter: id"⟩, s, eff⟩
  else if !isValidObjectId id then
    ⟨⟨400, .error ("Invalid ID format: " ++ env.errMsg)⟩, s, eff⟩
  else if env.findOneFault then
    ⟨⟨400, .error ("Invalid ID format: " ++ env.errMsg)⟩, s, eff ++ [.findOneOp]⟩
  else
    match s.store.find? (fun r => r.oid == id) with
    | none => ⟨⟨404, .error "QR code not found"⟩, s, eff ++ [.findOneOp]⟩
    | some r => ⟨⟨200, .record r⟩, s, eff ++ [.findOneOp]⟩

/-- The routes `server.js` registers.  No update or delete route exists
(PUT/DELETE appear only in the CORS allow-list). -/
inductive Request where
  | health
  | apiStatus
  | postQrcodes (body : ReqBody)
  | getQrcodes
  | getQrcodeById (id : String)

/-- Dispatch a request to its handler. -/
def handle (req : Request) (env : Env) (s : ServerState) : HResult :=
  match req with
  | .health => healthHandler s
  | .apiStatus => apiStatusHandler env s
  | .postQrcodes b => postQrcodes env b s
  | .getQrcodes => getQrcodes env s
  | .getQrcodeById id => getQrcodeById env id s

/-- The endpoints that touch the store (and so run the reconnect guard). -/
def storeRequiring : Request → Bool
  | .postQrcodes _ => true
  | .getQrcodes => true
  | .getQrcodeById _ => true
  | _ => false

/-- Number of reconnect attempts in a trace. -/
def connectAttempts (l : List Effect) : Nat :=
  (l.filter (fun e => match e with | .connectAttempt => true | _ => false)).length

/-! Concrete fixtures used by witnesses and counterevaluations. -/

/-- An environment where everything external succeeds. -/
def envOk : Env :=
  ⟨true, false, false, false, "0123456789abcdef01234567", 1700000000000, "socket timeout", none⟩

/-- An environment whose reconnect attempt fails. -/
def envDown : Env := { envOk with connectResult := false }

/-- An environment where `findOne` throws an I/O fault. -/
def envFindOneFault : Env := { envOk with findOneFault := true }

/-- A stored document. -/
def rec0 : Record :=
  ⟨"aaaaaaaaaaaaaaaaaaaaaaaa", .str "alice", .str "data:image/png;base64,AAA", 1690000000000⟩

/-- Connected state holding one record. -/
def sConn : ServerState := ⟨true, [rec0]⟩

/-- Connected state with an empty collection. -/
def sConnEmpty : ServerState := ⟨true, []⟩

/-- Disconnected state holding one record. -/
def sDown : ServerState := ⟨false, [rec0]⟩

/-- C8: GET `/health` returns 200 for every request regardless of the
connection state; GET `/api/status` returns 200 with a `mongodb` field
equal to `"connected"` exactly when the cached flag is set and
`"disconnected"` otherwise, reading only the cached flag (empty effect
trace: no probe, no reconnect). -/
theorem health_and_status (env : Env) (s : ServerState) :
    (handle .health env s).resp.status = 200 ∧
    (handle .apiStatus env s).resp.status = 200 ∧
    (handle .apiStatus env s).resp.body =
      .statusInfo "running" (if s.isConnected then "connected" else "disconnected")
        (nodeEnvOr env.nodeEnv) ∧
    ((if s.isConnected then "connected" else "disconnected") = "connected" ↔
      s.isConnected = true) ∧
    (handle .apiStatus env s).effects = [] ∧
    (handle .health env s).effects = [] := by
  refine ⟨rfl, rfl, rfl, ?_, rfl, rfl⟩
  cases h : s.isConnected <;> simp

/-- C9: no request updates or deletes an existing record: after any
request the store is the old store extended by a (possibly empty) tail,
so every previously stored record keeps its position and all fields. -/
theorem records_never_updated_or_deleted (req : Request) (env : Env) (s : ServerState) :
    ∃ tail, (handle req env s).state.store = s.store ++ tail := by
  cases req <;> cases hc : s.isConnected <;>
    simp only [handle, healthHandler, apiStatusHandler, postQrcodes, getQrcodes,
      getQrcodeById, connectToMongoDB, hc, Bool.not_true, Bool.not_false, if_true, if_false,
      Bool.false_eq_true, Bool.true_eq_false, ite_true, ite_false] <;>
    (repeat' split) <;>
    first
      | exact ⟨[], (List.append_nil _).symm⟩
      | exact ⟨_, rfl⟩

/-- C7: a store-requiring request arriving while the cached state is
disconnected makes exactly one reconnect attempt; if the state is still
disconnected afterwards the handler returns 500 with the
success-false/message body, touches no store operation, and its whole
trace is that single attempt (no further retry). -/
theorem reconnect_once_then_500 (req : Request) (env : Env) (s : ServerState)
    (hreq : storeRequiring req = true) (hdisc : s.isConnected = false) :
    connectAttempts (handle req env s).effects = 1 ∧
    (env.connectResult = false →
      (handle req env s).resp.status = 500 ∧
      (handle req env s).resp.body = .error "Database connection is not available" ∧
      (handle req env s).state.store = s.store ∧
      (handle req env s).effects = [.connectAttempt]) := by
  cases req <;> simp only [storeRequiring, Bool.false_eq_true] at hreq
  all_goals
    cases hr : env.connectResult <;>
      simp only [handle, postQrcodes, getQrcodes, getQrcodeById, connectToMongoDB,
        hdisc, hr, Bool.not_true, Bool.not_false, if_true, if_false, ite_true, ite_false] <;>
      (repeat' split) <;>
      simp_all [connectAttempts]

/-- Witness for C7 at a concrete disconnected state whose reconnect
attempt fails, on the list endpoint. -/
theorem reconnect_once_then_500_witness :
    storeRequiring .getQrcodes = true ∧ sDown.isConnected = false ∧
    envDown.connectResult = false ∧
    connectAttempts (handle .getQrcodes envDown sDown).effects = 1 ∧
    (handle .getQrcodes envDown sDown).resp.status = 500 ∧
    (handle .getQrcodes envDown sDown).resp.body =
      .error "Database connection is not available" ∧
    (handle .getQrcodes envDown sDown).effects = [.connectAttempt] :=
  ⟨rfl, rfl, rfl,
   (reconnect_once_then_500 .getQrcodes envDown sDown rfl rfl).1,
   ((reconnect_once_then_500 .getQrcodes envDown sDown rfl rfl).2 rfl).1,
   ((reconnect_once_then_500 .getQrcodes envDown sDown rfl rfl).2 rfl).2.1,
   ((reconnect_once_then_500 .getQrcodes envDown sDown rfl rfl).2 rfl).2.2.2⟩

/-- C2: when the list route reaches the store (connected, or the single
reconnect succeeds, and the query does not throw — the spec's separate
500 cases), it returns 200 and every stored record sanitized: each
element is the record's ordered key/value pairs holding `_id`,
`contactInfo` and `createdAt`, and no element has a `qrCodeImage` key. -/
theorem list_strips_image (env : Env) (s : ServerState)
    (hconn : s.isConnected = true ∨ env.connectResult = true)
    (hfault : env.findFault = false) :
    (handle .getQrcodes env s).resp.status = 200 ∧
    (handle .getQrcodes env s).resp.body = .records (s.store.map sanitizedFields) ∧
    (∀ e ∈ s.store.map sanitizedFields, e.lookup "qrCodeImage" = none) ∧
    (∀ r ∈ s.store,
      (sanitizedFields r).lookup "_id" = some (.str r.oid) ∧
      (sanitizedFields r).lookup "contactInfo" = some r.contactInfo ∧
      (sanitizedFields r).lookup "createdAt" = some (.num r.createdAt)) := by
  refine ⟨?_, ?_, ?_, ?_⟩
  · cases hc : s.isConnected <;>
      simp_all [handle, getQrcodes, connectToMongoDB]
  · cases hc : s.isConnected <;>
      simp_all [handle, getQrcodes, connectToMongoDB]
  · intro e he
    simp only [List.mem_map] at he
    obtain ⟨r, _, rfl⟩ := he
    rfl
  · intro r _
    exact ⟨rfl, rfl, rfl⟩

/-- Witness for C2 on a connected one-record store. -/
theorem list_strips_image_witness :
    sConn.isConnected = true ∧ envOk.findFault = false ∧
    (handle .getQrcodes envOk sConn).resp.status = 200 ∧
    (handle .getQrcodes envOk sConn).resp.body = .records [sanitizedFields rec0] ∧
    (sanitizedFields rec0).lookup "qrCodeImage" = none ∧
    (sanitizedFields rec0).lookup "contactInfo" = some rec0.contactInfo :=
  ⟨rfl, rfl,
   (list_strips_image envOk sConn (Or.inl rfl) rfl).1,
   (list_strips_image envOk sConn (Or.inl rfl) rfl).2.1,
   (list_strips_image envOk sConn (Or.inl rfl) rfl).2.2.1
     (sanitizedFields rec0) (by simp [sConn]),
   ((list_strips_image envOk sConn (Or.inl rfl) rfl).2.2.2 rec0 (by simp [sConn])).2.1⟩

/-- C3: a POST whose body is missing `contactInfo` or `qrCodeImage` is
rejected with 400 and the missing-fields message, and no record is
inserted; the connectivity hypothesis reflects that the reconnect guard
runs first (a disconnected store is the spec's separate 500 case). -/
theorem missing_fields_rejected (env : Env) (body : ReqBody) (s : ServerState)
    (hmiss : body.contactInfo = none ∨ body.qrCodeImage = none)
    (hconn : s.isConnected = true ∨ env.connectResult = true) :
    (handle (.postQrcodes body) env s).resp.status = 400 ∧
    (handle (.postQrcodes body) env s).resp.body =
      .error "Missing required fields: contactInfo or qrCodeImage" ∧
    (handle (.postQrcodes body) env s).state.store = s.store := by
  cases hc : s.isConnected <;>
    rcases hmiss with h | h <;>
    simp_all [handle, postQrcodes, connectToMongoDB, truthyOpt]

/-- Witness for C3: a body with no `contactInfo` against a connected
store. -/
theorem missing_fields_rejected_witness :
    (⟨none, some (.str "img")⟩ : ReqBody).contactInfo = none ∧
    sConn.isConnected = true ∧
    (handle (.postQrcodes ⟨none, some (.str "img")⟩) envOk sConn).resp.status = 400 ∧
    (handle (.postQrcodes ⟨none, some (.str "img")⟩) envOk sConn).state.store =
      sConn.store :=
  ⟨rfl, rfl,
   (missing_fields_rejected envOk ⟨none, some (.str "img")⟩ sConn (Or.inl rfl)
     (Or.inl rfl)).1,
   (missing_fields_rejected envOk ⟨none, some (.str "img")⟩ sConn (Or.inl rfl)
     (Or.inl rfl)).2.2⟩

/-- C5: once the reconnect guard has passed, a GET by a malformed id is
answered 400 by the inner catch (for the empty id, by the `!id` check),
and never 500: `new ObjectId` throws before `findOne` is reached, so no
store fault can surface. -/
theorem malformed_id_returns_400 (env : Env) (id : String) (s : ServerState)
    (hbad : isValidObjectId id = false)
    (hconn : s.isConnected = true ∨ env.connectResult = true) :
    (handle (.getQrcodeById id) env s).resp.status = 400 ∧
    (handle (.getQrcodeById id) env s).resp.status ≠ 500 := by
  have h400 : (handle (.getQrcodeById id) env s).resp.status = 400 := by
    cases hc : s.isConnected <;>
      simp_all only [handle, getQrcodeById, connectToMongoDB, Bool.not_true, Bool.not_false,
        if_true, if_false, ite_true, ite_false, or_true, true_or, or_false, false_or] <;>
      (repeat' split) <;>
      simp_all
  exact ⟨h400, by simp [h400]⟩

/-- Witness for C5 at a concrete malformed id. -/
theorem malformed_id_returns_400_witness :
    isValidObjectId "not-a-hex-id" = false ∧
    (handle (.getQrcodeById "not-a-hex-id") envOk sConn).resp.status = 400 :=
  ⟨by decide,
   (malformed_id_returns_400 envOk "not-a-hex-id" sConn (by decide) (Or.inl rfl)).1⟩

/-- C10: the POST presence check is JS truthiness, so a field that is
present but falsy (empty string, 0, false, or null) is rejected exactly
like a missing one: 400 with the missing-fields message and no insert
(connectivity hypothesis as in the missing-fields case, since the
reconnect guard runs first). -/
theorem falsy_fields_rejected (env : Env) (body : ReqBody) (s : ServerState)
    (hfalsy : (∃ v, body.contactInfo = some v ∧ truthy v = false) ∨
      (∃ v, body.qrCodeImage = some v ∧ truthy v = false))
    (hconn : s.isConnected = true ∨ env.connectResult = true) :
    (handle (.postQrcodes body) env s).resp.status = 400 ∧
    (handle (.postQrcodes body) env s).resp.body =
      .error "Missing required fields: contactInfo or qrCodeImage" ∧
    (handle (.postQrcodes body) env s).state.store = s.store := by
  cases hc : s.isConnected <;>
    rcases hfalsy with ⟨v, hv, hfv⟩ | ⟨v, hv, hfv⟩ <;>
    simp_all [handle, postQrcodes, connectToMongoDB, truthyOpt]

/-- Witness for C10: all four falsy shapes are falsy, and a present
empty-string `contactInfo` is rejected with 400 on a connected store. -/
theorem falsy_fields_rejected_witness :
    truthy (.str "") = false ∧ truthy (.num 0) = false ∧
    truthy (.bool false) = false ∧ truthy .null = false ∧
    (handle (.postQrcodes ⟨some (.str ""), some (.str "img")⟩) envOk sConn).resp.status
      = 400 ∧
    (handle (.postQrcodes ⟨some (.str ""), some (.str "img")⟩) envOk sConn).state.store
      = sConn.store :=
  ⟨rfl, by decide, rfl, rfl,
   (falsy_fields_rejected envOk ⟨some (.str ""), some (.str "img")⟩ sConn
     (Or.inl ⟨.str "", rfl, rfl⟩) (Or.inl rfl)).1,
   (falsy_fields_rejected envOk ⟨some (.str ""), some (.str "img")⟩ sConn
     (Or.inl ⟨.str "", rfl, rfl⟩) (Or.inl rfl)).2.2⟩

/-- A valid ObjectId string is nonempty (it has 24 characters), so the
handler's `!id` check cannot fire on it. -/
theorem id_ne_empty_of_valid (id : String) (hvalid : isValidObjectId id = true) :
    (id == "") = false := by
  cases h : (id == "") with
  | false => rfl
  | true =>
      have hid : id = "" := by simpa using h
      rw [hid] at hvalid
      exact absurd hvalid (by decide)

/-- On a connected state, with a valid id and no driver fault, the
get-by-id handler is the pure lookup: 404 when `findOne` matches
nothing, otherwise 200 with the matched document. -/
theorem getById_connected (env : Env) (id : String) (st : List Record)
    (hvalid : isValidObjectId id = true) (hfault : env.findOneFault = false) :
    handle (.getQrcodeById id) env ⟨true, st⟩ =
      match st.find? (fun x => x.oid == id) with
      | none => ⟨⟨404, .error "QR code not found"⟩, ⟨true, st⟩, [.findOneOp]⟩
      | some r => ⟨⟨200, .record r⟩, ⟨true, st⟩, [.findOneOp]⟩ := by
  have hne := id_ne_empty_of_valid id hvalid
  cases hfind : st.find? (fun x => x.oid == id) <;>
    simp [handle, getQrcodeById, connectToMongoDB, hfault, hne, hvalid, hfind]

/-- C6: with the guard passed and no driver fault, a well-formed id that
matches no stored record is answered 404, and a matching one is answered
200 with the full record (image payload included, since `Body.record`
carries the whole document). -/
theorem getById_found_and_not_found (env : Env) (id : String) (s : ServerState)
    (hvalid : isValidObjectId id = true)
    (hconn : s.isConnected = true ∨ env.connectResult = true)
    (hfault : env.findOneFault = false) :
    (s.store.find? (fun x => x.oid == id) = none →
      (handle (.getQrcodeById id) env s).resp.status = 404 ∧
      (handle (.getQrcodeById id) env s).resp.body = .error "QR code not found") ∧
    (∀ r, s.store.find? (fun x => x.oid == id) = some r →
      (handle (.getQrcodeById id) env s).resp.status = 200 ∧
      (handle (.getQrcodeById id) env s).resp.body = .record r) := by
  have hne := id_ne_empty_of_valid id hvalid
  constructor
  · intro hfind
    rcases hconn with hct | hcr
    · simp [handle, getQrcodeById, connectToMongoDB, hct, hfault, hne, hvalid, hfind]
    · cases hc : s.isConnected
      · simp [handle, getQrcodeById, connectToMongoDB, hc, hcr, hfault, hne, hvalid, hfind]
      · simp [handle, getQrcodeById, connectToMongoDB, hc, hfault, hne, hvalid, hfind]
  · intro r hfind
    rcases hconn with hct | hcr
    · simp [handle, getQrcodeById, connectToMongoDB, hct, hfault, hne, hvalid, hfind]
    · cases hc : s.isConnected
      · simp [handle, getQrcodeById, connectToMongoDB, hc, hcr, hfault, hne, hvalid, hfind]
      · simp [handle, getQrcodeById, connectToMongoDB, hc, hfault, hne, hvalid, hfind]

/-- Witness for C6: a missing id gives 404 on an empty store, and the
stored record's id gives 200 with the full record. -/
theorem getById_found_and_not_found_witness :
    isValidObjectId "aaaaaaaaaaaaaaaaaaaaaaaa" = true ∧
    (handle (.getQrcodeById "aaaaaaaaaaaaaaaaaaaaaaaa") envOk sConnEmpty).resp.status
      = 404 ∧
    (handle (.getQrcodeById "aaaaaaaaaaaaaaaaaaaaaaaa") envOk sConn).resp.status
      = 200 ∧
    (handle (.getQrcodeById "aaaaaaaaaaaaaaaaaaaaaaaa") envOk sConn).resp.body
      = .record rec0 :=
  ⟨by decide,
   ((getById_found_and_not_found envOk "aaaaaaaaaaaaaaaaaaaaaaaa" sConnEmpty
       (by decide) (Or.inl rfl) rfl).1 rfl).1,
   ((getById_found_and_not_found envOk "aaaaaaaaaaaaaaaaaaaaaaaa" sConn
       (by decide) (Or.inl rfl) rfl).2 rec0 rfl).1,
   ((getById_found_and_not_found envOk "aaaaaaaaaaaaaaaaaaaaaaaa" sConn
       (by decide) (Or.inl rfl) rfl).2 rec0 rfl).2⟩

/-- C1: a POST whose two fields are present (truthy) and whose insert
succeeds answers 201 carrying the assigned id, and a subsequent GET of
that id (fresh with respect to the store, as driver-assigned ObjectIds
are) returns 200 with the record holding exactly the inserted
`contactInfo` and `qrCodeImage`. -/
theorem roundtrip_insert_then_get (env1 env2 : Env) (body : ReqBody) (s : ServerState)
    (hci : truthyOpt body.contactInfo = true) (hqi : truthyOpt body.qrCodeImage = true)
    (hconn : s.isConnected = true ∨ env1.connectResult = true)
    (hins : env1.insertFault = false)
    (hvalid : isValidObjectId env1.newId = true)
    (hfresh : ∀ r ∈ s.store, r.oid ≠ env1.newId)
    (hfault : env2.findOneFault = false) :
    (handle (.postQrcodes body) env1 s).resp.status = 201 ∧
    (handle (.postQrcodes body) env1 s).resp.body =
      .created env1.newId "QR code saved successfully" ∧
    (handle (.getQrcodeById env1.newId) env2
        (handle (.postQrcodes body) env1 s).state).resp.status = 200 ∧
    (handle (.getQrcodeById env1.newId) env2
        (handle (.postQrcodes body) env1 s).state).resp.body =
      .record ⟨env1.newId, body.contactInfo.getD .null, body.qrCodeImage.getD .null,
        env1.now⟩ := by
  have hstate : (handle (.postQrcodes body) env1 s).state =
      ⟨true, s.store ++ [⟨env1.newId, body.contactInfo.getD .null,
        body.qrCodeImage.getD .null, env1.now⟩]⟩ := by
    rcases hconn with hct | hcr
    · simp [handle, postQrcodes, connectToMongoDB, hct, hci, hqi, hins]
    · cases hc : s.isConnected
      · simp [handle, postQrcodes, connectToMongoDB, hc, hcr, hci, hqi, hins]
      · simp [handle, postQrcodes, connectToMongoDB, hc, hci, hqi, hins]
  have h201 : (handle (.postQrcodes body) env1 s).resp =
      ⟨201, .created env1.newId "QR code saved successfully"⟩ := by
    rcases hconn with hct | hcr
    · simp [handle, postQrcodes, connectToMongoDB, hct, hci, hqi, hins]
    · cases hc : s.isConnected
      · simp [handle, postQrcodes, connectToMongoDB, hc, hcr, hci, hqi, hins]
      · simp [handle, postQrcodes, connectToMongoDB, hc, hci, hqi, hins]
  have hfind : (s.store ++ [Record.mk env1.newId (body.contactInfo.getD .null)
        (body.qrCodeImage.getD .null) env1.now]).find?
        (fun x => x.oid == env1.newId) =
      some (Record.mk env1.newId (body.contactInfo.getD .null)
        (body.qrCodeImage.getD .null) env1.now) := by
    rw [List.find?_append]
    have hnone : s.store.find? (fun x => x.oid == env1.newId) = none :=
      List.find?_eq_none.mpr (fun x hx => by simp [hfresh x hx])
    rw [hnone]
    simp
  have hget := getById_connected env2 env1.newId
    (s.store ++ [Record.mk env1.newId (body.contactInfo.getD .null)
      (body.qrCodeImage.getD .null) env1.now]) hvalid hfault
  rw [hfind] at hget
  rw [hstate]
  exact ⟨by rw [h201], by rw [h201], by rw [hget], by rw [hget]⟩

/-- Witness for C1: insert a concrete contact/image pair into an empty
connected store, then fetch the assigned id. -/
theorem roundtrip_insert_then_get_witness :
    truthyOpt (some (.str "alice")) = true ∧
    isValidObjectId envOk.newId = true ∧
    (handle (.postQrcodes ⟨some (.str "alice"), some (.str "img")⟩)
      envOk sConnEmpty).resp.status = 201 ∧
    (handle (.getQrcodeById envOk.newId) envOk
        (handle (.postQrcodes ⟨some (.str "alice"), some (.str "img")⟩)
          envOk sConnEmpty).state).resp.status = 200 ∧
    (handle (.getQrcodeById envOk.newId) envOk
        (handle (.postQrcodes ⟨some (.str "alice"), some (.str "img")⟩)
          envOk sConnEmpty).state).resp.body =
      .record ⟨envOk.newId, .str "alice", .str "img", envOk.now⟩ :=
  ⟨rfl, by decide,
   (roundtrip_insert_then_get envOk envOk ⟨some (.str "alice"), some (.str "img")⟩
     sConnEmpty rfl rfl (Or.inl rfl) rfl (by decide) (by simp [sConnEmpty]) rfl).1,
   (roundtrip_insert_then_get envOk envOk ⟨some (.str "alice"), some (.str "img")⟩
     sConnEmpty rfl rfl (Or.inl rfl) rfl (by decide) (by simp [sConnEmpty]) rfl).2.2.1,
   (roundtrip_insert_then_get envOk envOk ⟨some (.str "alice"), some (.str "img")⟩
     sConnEmpty rfl rfl (Or.inl rfl) rfl (by decide) (by simp [sConnEmpty]) rfl).2.2.2⟩

/-- C4 (code bug): with the store connected and a well-formed id, a
`findOne` I/O fault is caught by the handler's inner `idError` catch, so
the code answers 400 with the invalid-id message — not the 500 the spec
assigns to a store fault during an operation. -/
theorem getById_store_fault_returns_400 :
    (handle (.getQrcodeById "aaaaaaaaaaaaaaaaaaaaaaaa")
      envFindOneFault sConn).resp.status = 400 ∧
    (handle (.getQrcodeById "aaaaaaaaaaaaaaaaaaaaaaaa")
      envFindOneFault sConn).resp.body =
      .error ("Invalid ID format: " ++ envFindOneFault.errMsg) ∧
    ¬((handle (.getQrcodeById "aaaaaaaaaaaaaaaaaaaaaaaa")
      envFindOneFault sConn).resp.status = 500) :=
  ⟨rfl, rfl, by decide⟩
